import Mathlib

/-
  Shallow embedding of the FocusBand repository.

  Client-side scoring pipeline: client camera-feed component
  (calculateEAR, the per-frame body of detectFaces).
  Client-side batching: active-session page (metrics interval callback,
  handleStopSession).
  Server: server/routes.ts handlers over an in-memory storage
  (storage implementation is not part of the sources; it is modelled
  from the spec where needed, see the doc comments).
-/

namespace FocusBand

/-- A 2D landmark point (x, y) produced by the face-landmarks model. -/
abbrev Point := ℝ × ℝ

/-- Per-frame live data passed to onDataUpdate (LiveAttentionData in shared/schema.ts).
    blinkRate is emitted through Math.round, hence an integer. -/
structure LiveAttentionData where
  attentionScore : ℝ
  eyeOpenness : ℝ
  blinkRate : ℤ
  gazeDirection : String
  headYaw : ℝ
  headPitch : ℝ
  faceDetected : Bool

/-- The mutable blink-tracking refs of the camera-feed component:
    lastBlinkTime, blinkCount, blinkWindowStart (times in milliseconds). -/
structure BlinkState where
  lastBlinkTime : ℝ
  blinkCount : ℕ
  blinkWindowStart : ℝ

noncomputable section Scoring

/-- Math.hypot on two components. -/
def hypot (a b : ℝ) : ℝ := Real.sqrt (a ^ 2 + b ^ 2)

/-- The safe accessor of detectFaces: normalizedKeypoints[i] ?? x 0 y 0. -/
def safeKp (kps : List Point) (i : ℕ) : Point := kps.getD i (0, 0)

/-- Left-eye landmark extraction by indices 33, 160, 158, 133, 153, 144. -/
def leftEyePoints (kps : List Point) : List Point :=
  [safeKp kps 33, safeKp kps 160, safeKp kps 158, safeKp kps 133, safeKp kps 153, safeKp kps 144]

/-- Right-eye landmark extraction by indices 362, 385, 387, 263, 373, 380. -/
def rightEyePoints (kps : List Point) : List Point :=
  [safeKp kps 362, safeKp kps 385, safeKp kps 387, safeKp kps 263, safeKp kps 373, safeKp kps 380]

/-- calculateEAR from the camera-feed component: two vertical distances over
    twice the horizontal distance. -/
def calculateEAR (eye : List Point) : ℝ :=
  (hypot ((eye.getD 1 (0, 0)).1 - (eye.getD 5 (0, 0)).1)
         ((eye.getD 1 (0, 0)).2 - (eye.getD 5 (0, 0)).2)
   + hypot ((eye.getD 2 (0, 0)).1 - (eye.getD 4 (0, 0)).1)
           ((eye.getD 2 (0, 0)).2 - (eye.getD 4 (0, 0)).2))
  / (2 * hypot ((eye.getD 0 (0, 0)).1 - (eye.getD 3 (0, 0)).1)
               ((eye.getD 0 (0, 0)).2 - (eye.getD 3 (0, 0)).2))

/-- avgEAR = (leftEAR + rightEAR) / 2. -/
def avgEARof (kps : List Point) : ℝ :=
  (calculateEAR (leftEyePoints kps) + calculateEAR (rightEyePoints kps)) / 2

/-- noseTip = safe 1. -/
def noseTipOf (kps : List Point) : Point := safeKp kps 1

/-- faceCenter: x from landmarks 234 and 454, y from landmarks 10 and 152. -/
def faceCenterOf (kps : List Point) : Point :=
  (((safeKp kps 234).1 + (safeKp kps 454).1) / 2,
   ((safeKp kps 10).2 + (safeKp kps 152).2) / 2)

/-- gazeOffsetX = noseTip.x - faceCenter.x. -/
def gazeOffsetXOf (kps : List Point) : ℝ := (noseTipOf kps).1 - (faceCenterOf kps).1

/-- gazeOffsetY = noseTip.y - faceCenter.y. -/
def gazeOffsetYOf (kps : List Point) : ℝ := (noseTipOf kps).2 - (faceCenterOf kps).2

/-- Gaze classification of detectFaces. -/
def gazeDirectionOf (kps : List Point) : String :=
  if |gazeOffsetXOf kps| > 15 then (if gazeOffsetXOf kps > 0 then "right" else "left")
  else if |gazeOffsetYOf kps| > 15 then (if gazeOffsetYOf kps > 0 then "down" else "up")
  else "center"

/-- headYaw = gazeOffsetX * 0.5. -/
def headYawOf (kps : List Point) : ℝ := gazeOffsetXOf kps * 0.5

/-- headPitch = gazeOffsetY * 0.5. -/
def headPitchOf (kps : List Point) : ℝ := gazeOffsetYOf kps * 0.5

/-- Blink detection step: if avgEAR < 0.2 and now - lastBlinkTime > 300 then a
    blink is counted and lastBlinkTime is set to now. -/
def blinkDetectStep (st : BlinkState) (avgEAR now : ℝ) : BlinkState :=
  if avgEAR < 0.2 ∧ now - st.lastBlinkTime > 300 then
    { st with blinkCount := st.blinkCount + 1, lastBlinkTime := now }
  else st

/-- Blink window step: after 10000 ms the window restarts and the count resets. -/
def blinkWindowStep (st : BlinkState) (now : ℝ) : BlinkState :=
  if now - st.blinkWindowStart > 10000 then
    { st with blinkWindowStart := now, blinkCount := 0 }
  else st

/-- The full per-frame update of the blink refs. -/
def blinkUpdate (st : BlinkState) (avgEAR now : ℝ) : BlinkState :=
  blinkWindowStep (blinkDetectStep st avgEAR now) now

/-- blinkRate = (blinkCount / ((now - blinkWindowStart) / 1000)) * 60. -/
def blinkRateOf (st : BlinkState) (now : ℝ) : ℝ :=
  ((st.blinkCount : ℝ) / ((now - st.blinkWindowStart) / 1000)) * 60

/-- The attention-score composition of detectFaces: start at 100, subtract the
    four penalties, clamp into [0, 100]. -/
def attentionScoreOf (avgEAR : ℝ) (gazeDir : String) (headYaw headPitch blinkRate : ℝ) : ℝ :=
  max 0 (min 100
    (100 - (if avgEAR < 0.25 then 20 else 0)
         - (if gazeDir ≠ "center" then 30 else 0)
         - (if |headYaw| > 20 ∨ |headPitch| > 20 then 25 else 0)
         - (if blinkRate > 30 then 10 else 0)))

/-- The per-frame body of detectFaces, given the faces estimated on this frame
    (each face is its keypoint list), the blink refs and the current time.
    Returns the LiveAttentionData given to onDataUpdate and the new blink refs. -/
def detectFaces (faces : List (List Point)) (st : BlinkState) (now : ℝ) :
    LiveAttentionData × BlinkState :=
  match faces with
  | [] =>
      ({ attentionScore := 0, eyeOpenness := 0, blinkRate := 0, gazeDirection := "unknown",
         headYaw := 0, headPitch := 0, faceDetected := false }, st)
  | kps :: _ =>
      ({ attentionScore :=
           attentionScoreOf (avgEARof kps) (gazeDirectionOf kps) (headYawOf kps)
             (headPitchOf kps) (blinkRateOf (blinkUpdate st (avgEARof kps) now) now),
         eyeOpenness := avgEARof kps,
         blinkRate := round (blinkRateOf (blinkUpdate st (avgEARof kps) now) now),
         gazeDirection := gazeDirectionOf kps,
         headYaw := headYawOf kps,
         headPitch := headPitchOf kps,
         faceDetected := true },
       blinkUpdate st (avgEARof kps) now)

/-- Euclidean distance between two points, written from the words of the
    reference definition of the per-frame attention score. -/
def specDist (p q : Point) : ℝ := Real.sqrt ((p.1 - q.1) ^ 2 + (p.2 - q.2) ^ 2)

/-- Eye aspect ratio as the reference definition words it:
    (dist(p1,p5) + dist(p2,p4)) / (2 * dist(p0,p3)). -/
def specEAR (eye : List Point) : ℝ :=
  (specDist (eye.getD 1 (0, 0)) (eye.getD 5 (0, 0))
   + specDist (eye.getD 2 (0, 0)) (eye.getD 4 (0, 0)))
  / (2 * specDist (eye.getD 0 (0, 0)) (eye.getD 3 (0, 0)))

/-- Reference definition of the per-frame attention score, written from the
    spec claim: start at 100; subtract 20 if the average eye aspect ratio is
    below 0.25; subtract 30 if the gaze is not center, where the gaze is
    non-center exactly when one of the absolute gaze offsets exceeds 15;
    subtract 25 if |headYaw| > 20 or |headPitch| > 20 with headYaw and
    headPitch 0.5 times the offsets; subtract 10 if the blink rate exceeds 30;
    clamp into [0, 100]. -/
def specAttentionScore (leftEye rightEye : List Point) (noseTip faceCenter : Point)
    (blinkRate : ℝ) : ℝ :=
  max 0 (min 100
    (100 - (if (specEAR leftEye + specEAR rightEye) / 2 < 0.25 then 20 else 0)
         - (if |noseTip.1 - faceCenter.1| > 15 ∨ |noseTip.2 - faceCenter.2| > 15 then 30 else 0)
         - (if |0.5 * (noseTip.1 - faceCenter.1)| > 20 ∨ |0.5 * (noseTip.2 - faceCenter.2)| > 20
            then 25 else 0)
         - (if blinkRate > 30 then 10 else 0)))

/-- A concrete landmark assignment for the keypoint indices the pipeline reads:
    both eyes lie on a horizontal segment of length 10 with coinciding
    vertical-pair points (a fully closed eye, EAR exactly 0 with denominator
    20, no division by zero), the nose tip sits exactly at the face center
    (gaze offsets 0). Every coordinate is a small integer, so the source's
    floating-point arithmetic is exact at this input and agrees with the real
    arithmetic of the model. -/
def sampleKpsFun : ℕ → Point := fun i =>
  if i = 33 ∨ i = 362 then (0, 0)
  else if i = 133 ∨ i = 263 then (10, 0)
  else if i = 160 ∨ i = 144 ∨ i = 385 ∨ i = 380 then (3, 0)
  else if i = 158 ∨ i = 153 ∨ i = 387 ∨ i = 373 then (7, 0)
  else if i = 1 then (5, 5)
  else if i = 234 ∨ i = 454 then (5, 0)
  else if i = 10 ∨ i = 152 then (0, 5)
  else (0, 0)

/-- The sample keypoint list: 455 entries, covering every index the pipeline
    reads (the largest is 454). -/
def sampleKps : List Point := (List.range 455).map sampleKpsFun

end Scoring

theorem calculateEAR_eq_specEAR (eye : List Point) : calculateEAR eye = specEAR eye := rfl

theorem gazeDirectionOf_ne_center (kps : List Point) :
    gazeDirectionOf kps ≠ "center" ↔ (|gazeOffsetXOf kps| > 15 ∨ |gazeOffsetYOf kps| > 15) := by
  unfold gazeDirectionOf
  split_ifs with h1 h2 h3 h4 <;> simp_all

/-- C1: for every processed frame in which a face is detected, the per-frame
    attention score of detectFaces equals the reference definition of the spec:
    start at 100, subtract 20 when the average eye aspect ratio is below 0.25,
    subtract 30 when the gaze is not center (an absolute gaze offset above 15),
    subtract 25 when |headYaw| > 20 or |headPitch| > 20 with head angles half the
    gaze offsets, subtract 10 when the blink rate exceeds 30 per minute, then
    clamp into [0, 100]. -/
theorem detectFaces_matches_spec (kps : List Point) (rest : List (List Point))
    (st : BlinkState) (now : ℝ) :
    (detectFaces (kps :: rest) st now).1.attentionScore
      = specAttentionScore (leftEyePoints kps) (rightEyePoints kps)
          (noseTipOf kps) (faceCenterOf kps)
          (blinkRateOf (blinkUpdate st (avgEARof kps) now) now) := by
  show attentionScoreOf (avgEARof kps) (gazeDirectionOf kps) (headYawOf kps)
      (headPitchOf kps) (blinkRateOf (blinkUpdate st (avgEARof kps) now) now)
    = specAttentionScore (leftEyePoints kps) (rightEyePoints kps)
        (noseTipOf kps) (faceCenterOf kps)
        (blinkRateOf (blinkUpdate st (avgEARof kps) now) now)
  unfold attentionScoreOf specAttentionScore
  have h1 : avgEARof kps = (specEAR (leftEyePoints kps) + specEAR (rightEyePoints kps)) / 2 := rfl
  have h2 : (if gazeDirectionOf kps ≠ "center" then (30 : ℝ) else 0)
      = (if |(noseTipOf kps).1 - (faceCenterOf kps).1| > 15
            ∨ |(noseTipOf kps).2 - (faceCenterOf kps).2| > 15 then (30 : ℝ) else 0) := by
    refine if_congr ?_ rfl rfl
    exact gazeDirectionOf_ne_center kps
  have h3 : (if |headYawOf kps| > 20 ∨ |headPitchOf kps| > 20 then (25 : ℝ) else 0)
      = (if |0.5 * ((noseTipOf kps).1 - (faceCenterOf kps).1)| > 20
            ∨ |0.5 * ((noseTipOf kps).2 - (faceCenterOf kps).2)| > 20 then (25 : ℝ) else 0) := by
    refine if_congr ?_ rfl rfl
    unfold headYawOf headPitchOf gazeOffsetXOf gazeOffsetYOf
    rw [mul_comm _ (0.5 : ℝ), mul_comm _ (0.5 : ℝ)]
  rw [h1, h2, h3]

/-- Helper bound: the clamped weighted-penalty composition never goes below 15,
    since the four penalties sum to at most 85. -/
theorem attentionScoreOf_ge_15 (a : ℝ) (g : String) (y p b : ℝ) :
    15 ≤ attentionScoreOf a g y p b := by
  unfold attentionScoreOf
  have h : (15 : ℝ) ≤ min 100
      (100 - (if a < 0.25 then 20 else 0)
           - (if g ≠ "center" then 30 else 0)
           - (if |y| > 20 ∨ |p| > 20 then 25 else 0)
           - (if b > 30 then 10 else 0)) := by
    refine le_min (by norm_num) ?_
    split_ifs <;> norm_num
  exact le_trans h (le_max_right 0 _)

/-- C10: with a face detected the emitted attention score is at least 15, and a
    score of 0 arises only on no-face frames, whose output is exactly the zero
    record with gaze direction unknown. -/
theorem detectFaces_score_bounds (faces : List (List Point)) (st : BlinkState) (now : ℝ) :
    (faces ≠ [] → 15 ≤ (detectFaces faces st now).1.attentionScore) ∧
    (faces = [] → (detectFaces faces st now).1 = ⟨0, 0, 0, "unknown", 0, 0, false⟩) := by
  cases faces with
  | nil => exact ⟨fun h => absurd rfl h, fun _ => rfl⟩
  | cons kps rest =>
      exact ⟨fun _ => attentionScoreOf_ge_15 _ _ _ _ _, fun h => by cases h⟩

/-- Witness for the score bounds at concrete frames. -/
theorem detectFaces_score_bounds_witness :
    15 ≤ (detectFaces [[]] ⟨0, 0, 0⟩ 0).1.attentionScore ∧
    (detectFaces [] ⟨0, 0, 0⟩ 0).1 = ⟨0, 0, 0, "unknown", 0, 0, false⟩ :=
  ⟨(detectFaces_score_bounds [[]] ⟨0, 0, 0⟩ 0).1 (List.cons_ne_nil _ _),
   (detectFaces_score_bounds [] ⟨0, 0, 0⟩ 0).2 rfl⟩

theorem calculateEAR_sampleKps_left : calculateEAR (leftEyePoints sampleKps) = 0 := by
  have h33 : safeKp sampleKps 33 = ((0 : ℝ), (0 : ℝ)) := rfl
  have h160 : safeKp sampleKps 160 = ((3 : ℝ), (0 : ℝ)) := rfl
  have h158 : safeKp sampleKps 158 = ((7 : ℝ), (0 : ℝ)) := rfl
  have h133 : safeKp sampleKps 133 = ((10 : ℝ), (0 : ℝ)) := rfl
  have h153 : safeKp sampleKps 153 = ((7 : ℝ), (0 : ℝ)) := rfl
  have h144 : safeKp sampleKps 144 = ((3 : ℝ), (0 : ℝ)) := rfl
  rw [leftEyePoints, h33, h160, h158, h133, h153, h144, calculateEAR]
  simp only [List.getD_cons_zero, List.getD_cons_succ]
  rw [hypot, hypot]
  norm_num [Real.sqrt_zero]

theorem calculateEAR_sampleKps_right : calculateEAR (rightEyePoints sampleKps) = 0 := by
  have h362 : safeKp sampleKps 362 = ((0 : ℝ), (0 : ℝ)) := rfl
  have h385 : safeKp sampleKps 385 = ((3 : ℝ), (0 : ℝ)) := rfl
  have h387 : safeKp sampleKps 387 = ((7 : ℝ), (0 : ℝ)) := rfl
  have h263 : safeKp sampleKps 263 = ((10 : ℝ), (0 : ℝ)) := rfl
  have h373 : safeKp sampleKps 373 = ((7 : ℝ), (0 : ℝ)) := rfl
  have h380 : safeKp sampleKps 380 = ((3 : ℝ), (0 : ℝ)) := rfl
  rw [rightEyePoints, h362, h385, h387, h263, h373, h380, calculateEAR]
  simp only [List.getD_cons_zero, List.getD_cons_succ]
  rw [hypot, hypot]
  norm_num [Real.sqrt_zero]

theorem avgEARof_sampleKps : avgEARof sampleKps = 0 := by
  rw [avgEARof, calculateEAR_sampleKps_left, calculateEAR_sampleKps_right]
  norm_num

theorem gazeOffsetXOf_sampleKps : gazeOffsetXOf sampleKps = 0 := by
  have h1 : safeKp sampleKps 1 = ((5 : ℝ), (5 : ℝ)) := rfl
  have h234 : safeKp sampleKps 234 = ((5 : ℝ), (0 : ℝ)) := rfl
  have h454 : safeKp sampleKps 454 = ((5 : ℝ), (0 : ℝ)) := rfl
  rw [gazeOffsetXOf, noseTipOf, faceCenterOf, h1, h234, h454]
  norm_num

theorem gazeOffsetYOf_sampleKps : gazeOffsetYOf sampleKps = 0 := by
  have h1 : safeKp sampleKps 1 = ((5 : ℝ), (5 : ℝ)) := rfl
  have h10 : safeKp sampleKps 10 = ((0 : ℝ), (5 : ℝ)) := rfl
  have h152 : safeKp sampleKps 152 = ((0 : ℝ), (5 : ℝ)) := rfl
  rw [gazeOffsetYOf, noseTipOf, faceCenterOf, h1, h10, h152]
  norm_num

theorem gazeDirectionOf_sampleKps : gazeDirectionOf sampleKps = "center" := by
  rw [gazeDirectionOf, gazeOffsetXOf_sampleKps, gazeOffsetYOf_sampleKps]
  norm_num

theorem headYawOf_sampleKps : headYawOf sampleKps = 0 := by
  rw [headYawOf, gazeOffsetXOf_sampleKps]
  norm_num

theorem headPitchOf_sampleKps : headPitchOf sampleKps = 0 := by
  rw [headPitchOf, gazeOffsetYOf_sampleKps]
  norm_num

/-- C5 counterexample: two frames with identical landmark coordinates
    (sampleKps: closed eyes of width 10, EAR exactly 0 with nonzero
    denominators, nose at the face center) and the same wall-clock time produce
    different attention scores under different prior blink states: when the
    last counted blink is old enough a new blink enters the 10-second window
    and the blink rate 60 costs 10 points (score 70), when it is too recent the
    rate stays 0 (score 80). Every intermediate value is exact in binary
    floating point, so the source computes the same numbers at this input. -/
theorem detectFaces_not_stateless :
    (detectFaces [sampleKps] ⟨0, 0, 0⟩ 1000).1.attentionScore
      ≠ (detectFaces [sampleKps] ⟨1000, 0, 0⟩ 1000).1.attentionScore := by
  have hd1 : blinkDetectStep ⟨0, 0, 0⟩ 0 1000 = ⟨1000, 1, 0⟩ := by
    rw [blinkDetectStep]
    norm_num
  have hd2 : blinkDetectStep ⟨1000, 0, 0⟩ 0 1000 = ⟨1000, 0, 0⟩ := by
    rw [blinkDetectStep]
    norm_num
  have hu1 : blinkUpdate ⟨0, 0, 0⟩ (avgEARof sampleKps) 1000 = ⟨1000, 1, 0⟩ := by
    rw [blinkUpdate, avgEARof_sampleKps, hd1, blinkWindowStep]
    norm_num
  have hu2 : blinkUpdate ⟨1000, 0, 0⟩ (avgEARof sampleKps) 1000 = ⟨1000, 0, 0⟩ := by
    rw [blinkUpdate, avgEARof_sampleKps, hd2, blinkWindowStep]
    norm_num
  have hr1 : blinkRateOf ⟨1000, 1, 0⟩ 1000 = 60 := by
    rw [blinkRateOf]
    norm_num
  have hr2 : blinkRateOf ⟨1000, 0, 0⟩ 1000 = 0 := by
    rw [blinkRateOf]
    norm_num
  have e1 : (detectFaces [sampleKps] ⟨0, 0, 0⟩ 1000).1.attentionScore = 70 := by
    show attentionScoreOf (avgEARof sampleKps) (gazeDirectionOf sampleKps)
        (headYawOf sampleKps) (headPitchOf sampleKps)
        (blinkRateOf (blinkUpdate ⟨0, 0, 0⟩ (avgEARof sampleKps) 1000) 1000) = 70
    rw [hu1, hr1, avgEARof_sampleKps, gazeDirectionOf_sampleKps, headYawOf_sampleKps,
      headPitchOf_sampleKps]
    rw [attentionScoreOf]
    rw [if_pos (by norm_num)]
    rw [if_neg (by simp)]
    rw [if_neg (by norm_num)]
    rw [if_pos (by norm_num)]
    norm_num [min_def, max_def]
  have e2 : (detectFaces [sampleKps] ⟨1000, 0, 0⟩ 1000).1.attentionScore = 80 := by
    show attentionScoreOf (avgEARof sampleKps) (gazeDirectionOf sampleKps)
        (headYawOf sampleKps) (headPitchOf sampleKps)
        (blinkRateOf (blinkUpdate ⟨1000, 0, 0⟩ (avgEARof sampleKps) 1000) 1000) = 80
    rw [hu2, hr2, avgEARof_sampleKps, gazeDirectionOf_sampleKps, headYawOf_sampleKps,
      headPitchOf_sampleKps]
    rw [attentionScoreOf]
    rw [if_pos (by norm_num)]
    rw [if_neg (by simp)]
    rw [if_neg (by norm_num)]
    rw [if_neg (by norm_num)]
    norm_num [min_def, max_def]
  rw [e1, e2]
  norm_num

/-- C5 amended: the per-frame score is a pure function of the landmarks and the
    blink rate computed from the updated blink state and current time; two
    face-detected frames with identical landmarks and equal computed blink
    rates get identical scores. -/
theorem detectFaces_score_determined_by_landmarks_and_blinkRate
    (kps : List Point) (r1 r2 : List (List Point)) (st1 st2 : BlinkState) (now1 now2 : ℝ)
    (h : blinkRateOf (blinkUpdate st1 (avgEARof kps) now1) now1
       = blinkRateOf (blinkUpdate st2 (avgEARof kps) now2) now2) :
    (detectFaces (kps :: r1) st1 now1).1.attentionScore
      = (detectFaces (kps :: r2) st2 now2).1.attentionScore := by
  show attentionScoreOf (avgEARof kps) (gazeDirectionOf kps) (headYawOf kps) (headPitchOf kps)
      (blinkRateOf (blinkUpdate st1 (avgEARof kps) now1) now1)
    = attentionScoreOf (avgEARof kps) (gazeDirectionOf kps) (headYawOf kps) (headPitchOf kps)
      (blinkRateOf (blinkUpdate st2 (avgEARof kps) now2) now2)
  rw [h]

/-- Witness for the amended determinism statement at a concrete frame. -/
theorem detectFaces_score_determined_witness :
    (detectFaces [sampleKps] ⟨0, 0, 0⟩ 1000).1.attentionScore
      = (detectFaces [sampleKps] ⟨0, 0, 0⟩ 1000).1.attentionScore :=
  detectFaces_score_determined_by_landmarks_and_blinkRate sampleKps [] [] ⟨0, 0, 0⟩ ⟨0, 0, 0⟩
    1000 1000 rfl

/-- A stored session row (sessions table of shared/schema.ts); timestamps are
    epoch milliseconds as rationals. -/
structure Session where
  id : String
  startTime : ℚ
  endTime : Option ℚ
  duration : Option ℕ
  averageAttention : Option ℚ
  peakAttention : Option ℚ
  lowestAttention : Option ℚ
  totalBlinks : Option ℕ
  averageEyeOpenness : Option ℚ
deriving DecidableEq

/-- A stored attention-metric row (attention_metrics table). -/
structure AttentionMetric where
  id : String
  sessionId : String
  timestamp : ℚ
  attentionScore : ℚ
  eyeOpenness : ℚ
  blinkDetected : ℤ
  gazeDirection : String
  headYaw : ℚ
  headPitch : ℚ
deriving DecidableEq

/-- An insert-schema session payload (insertSessionSchema: the session row
    without its id). -/
structure InsertSession where
  startTime : ℚ
  endTime : Option ℚ
  duration : Option ℕ
  averageAttention : Option ℚ
  peakAttention : Option ℚ
  lowestAttention : Option ℚ
  totalBlinks : Option ℕ
  averageEyeOpenness : Option ℚ
deriving DecidableEq

/-- An insert-schema metric payload (insertAttentionMetricSchema: the metric
    row without its id). -/
structure InsertAttentionMetric where
  sessionId : String
  timestamp : ℚ
  attentionScore : ℚ
  eyeOpenness : ℚ
  blinkDetected : ℤ
  gazeDirection : String
  headYaw : ℚ
  headPitch : ℚ
deriving DecidableEq

/-- A Partial InsertSession, the data argument of MemStorage.updateSession
    (the PATCH body): every field may be absent; a present endTime may itself
    be null. The stop handler sends the seven final-statistics fields. -/
structure SessionUpdate where
  startTime : Option ℚ
  endTime : Option (Option ℚ)
  duration : Option (Option ℕ)
  averageAttention : Option (Option ℚ)
  peakAttention : Option (Option ℚ)
  lowestAttention : Option (Option ℚ)
  totalBlinks : Option (Option ℕ)
  averageEyeOpenness : Option (Option ℚ)
deriving DecidableEq

/-- The MemStorage state (server storage module): the sessions and
    attentionMetrics maps, each keyed by the id field of its values and
    represented here as the list of those values, plus a counter supplying the
    fresh ids that stand for randomUUID. -/
structure Storage where
  sessions : List Session
  metrics : List AttentionMetric
  nextId : ℕ
deriving DecidableEq

/-- MemStorage.createSession: draw a fresh id, build the session row from the
    payload and the id, and set it into the sessions map under the new key
    (the ISO-string date normalization is the identity here, timestamps being
    rationals already). -/
def createSession (st : Storage) (d : InsertSession) : Session × Storage :=
  let s : Session :=
    { id := toString st.nextId, startTime := d.startTime, endTime := d.endTime,
      duration := d.duration, averageAttention := d.averageAttention,
      peakAttention := d.peakAttention, lowestAttention := d.lowestAttention,
      totalBlinks := d.totalBlinks, averageEyeOpenness := d.averageEyeOpenness }
  (s, { st with sessions := st.sessions ++ [s], nextId := st.nextId + 1 })

/-- MemStorage.getSession (the lookup the routes call as getSessionById):
    sessions.get on the id. -/
def getSession (st : Storage) (id : String) : Option Session :=
  st.sessions.find? (fun s => s.id == id)

/-- MemStorage.updateSession: undefined when the id is absent from the map;
    otherwise the spread of the stored row with the present fields of the
    Partial payload, written back under the same key. -/
def updateSession (st : Storage) (id : String) (u : SessionUpdate) :
    Option Session × Storage :=
  match getSession st id with
  | none => (none, st)
  | some s =>
      let s2 : Session :=
        { id := s.id,
          startTime := u.startTime.getD s.startTime,
          endTime := u.endTime.getD s.endTime,
          duration := u.duration.getD s.duration,
          averageAttention := u.averageAttention.getD s.averageAttention,
          peakAttention := u.peakAttention.getD s.peakAttention,
          lowestAttention := u.lowestAttention.getD s.lowestAttention,
          totalBlinks := u.totalBlinks.getD s.totalBlinks,
          averageEyeOpenness := u.averageEyeOpenness.getD s.averageEyeOpenness }
      (some s2,
       { st with sessions := st.sessions.map (fun t => if t.id == id then s2 else t) })

/-- MemStorage.deleteSession: sessions.delete(id) reports whether the key was
    present; only when it was are the metrics whose sessionId equals the id
    also deleted from the metrics map, and the boolean is returned. -/
def deleteSession (st : Storage) (id : String) : Bool × Storage :=
  if (getSession st id).isSome then
    (true,
     { st with sessions := st.sessions.filter (fun s => !(s.id == id)),
               metrics := st.metrics.filter (fun m => !(m.sessionId == id)) })
  else (false, st)

/-- MemStorage.createAttentionMetric: draw a fresh id and set the metric row
    into the metrics map; nothing checks that the sessionId names an existing
    session. -/
def createAttentionMetric (st : Storage) (d : InsertAttentionMetric) :
    AttentionMetric × Storage :=
  let m : AttentionMetric :=
    { id := toString st.nextId, sessionId := d.sessionId, timestamp := d.timestamp,
      attentionScore := d.attentionScore, eyeOpenness := d.eyeOpenness,
      blinkDetected := d.blinkDetected, gazeDirection := d.gazeDirection,
      headYaw := d.headYaw, headPitch := d.headPitch }
  (m, { st with metrics := st.metrics ++ [m], nextId := st.nextId + 1 })

/-- An HTTP response body as the route handlers produce it. -/
inductive RespBody
  | sessionBody (s : Session)
  | metricsBody (l : List AttentionMetric)
  | errorBody (msg : String)
  | successBody
deriving DecidableEq

/-- An HTTP response: status code and JSON body. -/
structure Resp where
  status : ℕ
  body : RespBody
deriving DecidableEq

/-- POST /api/sessions: parse the body against the insert schema; on success
    create the session and return it, on a parse failure respond 400 with the
    generic error. The parse outcome of the opaque JSON body is the input. -/
def postSessionsRoute (st : Storage) (parsed : Except String InsertSession) :
    Resp × Storage :=
  match parsed with
  | .ok d => (⟨200, .sessionBody (createSession st d).1⟩, (createSession st d).2)
  | .error _ => (⟨400, .errorBody ("Invalid session data")⟩, st)

/-- GET /api/sessions/:id: 404 with the generic error when the id is missing. -/
def getSessionRoute (st : Storage) (id : String) : Resp :=
  match getSession st id with
  | none => ⟨404, .errorBody ("Session not found")⟩
  | some s => ⟨200, .sessionBody s⟩

/-- PATCH /api/sessions/:id: 404 with the generic error when the id is missing,
    otherwise the updated session. -/
def patchSessionRoute (st : Storage) (id : String) (u : SessionUpdate) :
    Resp × Storage :=
  match updateSession st id u with
  | (none, st2) => (⟨404, .errorBody ("Session not found")⟩, st2)
  | (some s2, st2) => (⟨200, .sessionBody s2⟩, st2)

/-- DELETE /api/sessions/:id: the handler awaits storage.deleteSession,
    ignores the returned boolean and responds success true; it has no
    not-found branch. -/
def deleteSessionRoute (st : Storage) (id : String) : Resp × Storage :=
  (⟨200, .successBody⟩, (deleteSession st id).2)

/-- POST /api/metrics worker: the handler maps parse-then-create over the
    elements in order; the first parse failure aborts with the generic 400,
    after the creations of all the earlier elements were already initiated. -/
def postMetricsGo (st : Storage) (body : List (Except String InsertAttentionMetric))
    (acc : List AttentionMetric) : Resp × Storage :=
  match body with
  | [] => (⟨200, .metricsBody acc.reverse⟩, st)
  | .error _ :: _ => (⟨400, .errorBody ("Invalid metric data")⟩, st)
  | .ok d :: rest =>
      postMetricsGo (createAttentionMetric st d).2 rest ((createAttentionMetric st d).1 :: acc)

/-- POST /api/metrics: batch create. Each list element stands for one array
    element of the request body, given as its parse outcome. -/
def postMetricsRoute (st : Storage) (body : List (Except String InsertAttentionMetric)) :
    Resp × Storage :=
  postMetricsGo st body []

theorem postMetricsGo_error_mem (st : Storage)
    (body : List (Except String InsertAttentionMetric)) (acc : List AttentionMetric)
    (h : ∃ m, Except.error m ∈ body) :
    (postMetricsGo st body acc).1 = ⟨400, .errorBody ("Invalid metric data")⟩ := by
  induction body generalizing st acc with
  | nil => obtain ⟨m, hm⟩ := h; cases hm
  | cons e rest ih =>
      cases e with
      | error m => rfl
      | ok d =>
          obtain ⟨m, hm⟩ := h
          cases hm with
          | tail _ hmem => exact ih _ _ ⟨m, hmem⟩

/-- C6: a request body failing insert-schema validation makes POST
    /api/sessions answer 400 with the generic invalid-session body, leaving
    storage unchanged (no session created), and makes POST /api/metrics answer
    400 with the generic invalid-metric body. -/
theorem validation_failure_generic_400 (st : Storage) (msg : String)
    (body : List (Except String InsertAttentionMetric))
    (h : ∃ m, Except.error m ∈ body) :
    (postSessionsRoute st (Except.error msg)).1 = ⟨400, .errorBody ("Invalid session data")⟩ ∧
    (postSessionsRoute st (Except.error msg)).2 = st ∧
    (postMetricsRoute st body).1 = ⟨400, .errorBody ("Invalid metric data")⟩ :=
  ⟨rfl, rfl, postMetricsGo_error_mem st body [] h⟩

/-- Witness for the generic 400 responses on a concrete invalid body. -/
theorem validation_failure_generic_400_witness :
    (∃ m, Except.error m
        ∈ ([Except.error ("oops")] : List (Except String InsertAttentionMetric))) ∧
    (postSessionsRoute ⟨[], [], 0⟩ (Except.error ("oops"))).1
      = ⟨400, .errorBody ("Invalid session data")⟩ ∧
    (postSessionsRoute ⟨[], [], 0⟩ (Except.error ("oops"))).2 = ⟨[], [], 0⟩ ∧
    (postMetricsRoute ⟨[], [], 0⟩ [Except.error ("oops")]).1
      = ⟨400, .errorBody ("Invalid metric data")⟩ := by
  have h : ∃ m, Except.error m
      ∈ ([Except.error ("oops")] : List (Except String InsertAttentionMetric)) :=
    ⟨"oops", List.mem_singleton.mpr rfl⟩
  have hc := validation_failure_generic_400 ⟨[], [], 0⟩ "oops" [Except.error ("oops")] h
  exact ⟨h, hc.1, hc.2.1, hc.2.2⟩

/-- C7 counterexample: with only an orphaned metric in storage (creatable
    through POST /api/metrics, since createAttentionMetric never checks that
    the sessionId names a session), DELETE of that sessionId still answers
    success true, yet the metric whose sessionId references the deleted id
    remains in storage: the cascade runs only when sessions.delete found the
    key. -/
theorem deleteSession_cascade_counterexample :
    (deleteSessionRoute ⟨[], [⟨"m1", "a", 0, 50, 0, 0, "center", 0, 0⟩], 0⟩ "a").1
      = ⟨200, .successBody⟩ ∧
    ⟨"m1", "a", 0, 50, 0, 0, "center", 0, 0⟩
      ∈ (deleteSessionRoute ⟨[], [⟨"m1", "a", 0, 50, 0, 0, "center", 0, 0⟩], 0⟩
          "a").2.metrics ∧
    (⟨"m1", "a", 0, 50, 0, 0, "center", 0, 0⟩ : AttentionMetric).sessionId = "a" := by
  refine ⟨rfl, ?_, rfl⟩
  decide

/-- C7 amended: when a session with the id exists in storage, DELETE
    /api/sessions/:id succeeds and afterwards no stored attention metric
    references the deleted session id (deletion cascade). -/
theorem deleteSession_cascade_for_existing (st : Storage) (id : String)
    (h : (getSession st id).isSome = true) :
    (deleteSessionRoute st id).1 = ⟨200, .successBody⟩ ∧
    (∀ m, m ∈ (deleteSessionRoute st id).2.metrics → m.sessionId ≠ id) := by
  refine ⟨rfl, ?_⟩
  intro m hm
  simp only [deleteSessionRoute, deleteSession, h, if_true] at hm
  have h2 := (List.mem_filter.mp hm).2
  simpa using h2

/-- Witness for the amended cascade on a concrete store holding the session,
    one of its metrics and one metric of another session. -/
theorem deleteSession_cascade_for_existing_witness :
    (getSession ⟨[⟨"a", 0, none, none, none, none, none, none, none⟩],
        [⟨"m1", "a", 0, 50, 0, 0, "center", 0, 0⟩,
         ⟨"m2", "b", 0, 40, 0, 0, "center", 0, 0⟩], 0⟩ "a").isSome = true ∧
    (deleteSessionRoute ⟨[⟨"a", 0, none, none, none, none, none, none, none⟩],
        [⟨"m1", "a", 0, 50, 0, 0, "center", 0, 0⟩,
         ⟨"m2", "b", 0, 40, 0, 0, "center", 0, 0⟩], 0⟩ "a").1 = ⟨200, .successBody⟩ ∧
    (⟨"m2", "b", 0, 40, 0, 0, "center", 0, 0⟩ : AttentionMetric).sessionId ≠ "a" :=
  ⟨by decide,
   (deleteSession_cascade_for_existing ⟨[⟨"a", 0, none, none, none, none, none, none, none⟩],
       [⟨"m1", "a", 0, 50, 0, 0, "center", 0, 0⟩,
        ⟨"m2", "b", 0, 40, 0, 0, "center", 0, 0⟩], 0⟩ "a" (by decide)).1,
   (deleteSession_cascade_for_existing ⟨[⟨"a", 0, none, none, none, none, none, none, none⟩],
       [⟨"m1", "a", 0, 50, 0, 0, "center", 0, 0⟩,
        ⟨"m2", "b", 0, 40, 0, 0, "center", 0, 0⟩], 0⟩ "a" (by decide)).2
     ⟨"m2", "b", 0, 40, 0, 0, "center", 0, 0⟩ (by decide)⟩

theorem createAttentionMetric_metrics_length (st : Storage) (d : InsertAttentionMetric) :
    ((createAttentionMetric st d).2).metrics.length = st.metrics.length + 1 := by
  simp [createAttentionMetric]

theorem postMetricsGo_ok_prefix (pre : List InsertAttentionMetric) (msg : String)
    (rest : List (Except String InsertAttentionMetric)) (st : Storage)
    (acc : List AttentionMetric) :
    (postMetricsGo st (pre.map Except.ok ++ Except.error msg :: rest) acc).1
      = ⟨400, .errorBody ("Invalid metric data")⟩ ∧
    (postMetricsGo st (pre.map Except.ok ++ Except.error msg :: rest) acc).2.metrics.length
      = st.metrics.length + pre.length := by
  induction pre generalizing st acc with
  | nil => exact ⟨rfl, rfl⟩
  | cons d pre ih =>
      simp only [List.map_cons, List.cons_append, postMetricsGo, List.append_eq,
        List.length_cons]
      have h := ih ((createAttentionMetric st d).2) ((createAttentionMetric st d).1 :: acc)
      refine ⟨h.1, ?_⟩
      rw [h.2, createAttentionMetric_metrics_length]
      omega

/-- C8: the batch metrics insert is not atomic. When the body is a run of valid
    elements followed by an invalid one, the response is the generic 400, yet
    the storage has gained exactly one metric row per valid element before the
    failing position. -/
theorem postMetrics_not_atomic (st : Storage) (pre : List InsertAttentionMetric)
    (msg : String) (rest : List (Except String InsertAttentionMetric)) :
    (postMetricsRoute st (pre.map Except.ok ++ Except.error msg :: rest)).1
      = ⟨400, .errorBody ("Invalid metric data")⟩ ∧
    (postMetricsRoute st (pre.map Except.ok ++ Except.error msg :: rest)).2.metrics.length
      = st.metrics.length + pre.length :=
  postMetricsGo_ok_prefix pre msg rest st []

/-- C9: DELETE /api/sessions/:id answers success true whether or not the id
    exists, while GET and PATCH on a missing id answer 404 with the generic
    not-found error. -/
theorem delete_vs_get_patch_on_missing_id (st : Storage) (id : String) (u : SessionUpdate) :
    (deleteSessionRoute st id).1 = ⟨200, .successBody⟩ ∧
    (getSession st id = none → getSessionRoute st id = ⟨404, .errorBody ("Session not found")⟩) ∧
    (getSession st id = none →
      (patchSessionRoute st id u).1 = ⟨404, .errorBody ("Session not found")⟩) := by
  refine ⟨rfl, ?_, ?_⟩
  · intro h
    simp [getSessionRoute, h]
  · intro h
    simp [patchSessionRoute, updateSession, h]

/-- Witness for the missing-id behaviour on the empty store. -/
theorem delete_vs_get_patch_on_missing_id_witness :
    (deleteSessionRoute ⟨[], [], 0⟩ "x").1 = ⟨200, .successBody⟩ ∧
    getSessionRoute ⟨[], [], 0⟩ "x" = ⟨404, .errorBody ("Session not found")⟩ ∧
    (patchSessionRoute ⟨[], [], 0⟩ "x"
        ⟨none, none, none, none, none, none, none, none⟩).1
      = ⟨404, .errorBody ("Session not found")⟩ :=
  ⟨(delete_vs_get_patch_on_missing_id ⟨[], [], 0⟩ "x"
      ⟨none, none, none, none, none, none, none, none⟩).1,
   (delete_vs_get_patch_on_missing_id ⟨[], [], 0⟩ "x"
      ⟨none, none, none, none, none, none, none, none⟩).2.1 rfl,
   (delete_vs_get_patch_on_missing_id ⟨[], [], 0⟩ "x"
      ⟨none, none, none, none, none, none, none, none⟩).2.2 rfl⟩

/-- The client state of the ActiveSession page that the batching and stop logic
    touches: the pending-metrics queue, the save-in-progress and stopping refs,
    the session flags and the aggregate counters. -/
structure ClientState where
  pendingMetrics : List InsertAttentionMetric
  isSavingMetrics : Bool
  isStopping : Bool
  isSessionActive : Bool
  isPaused : Bool
  currentSessionId : String
  sessionDuration : ℕ
  allScores : List ℚ
  blinkCounter : ℕ
  eyeOpennessSum : ℚ
  dataPointCount : ℕ
deriving DecidableEq

/-- One firing of the 10-second metrics interval: when the save-in-progress ref
    is set the firing returns at once; otherwise, with a nonempty queue and a
    session id, it snapshots the queue, sets the ref and issues the batch POST
    (the second component, none when no request goes out). -/
def metricsIntervalTick (s : ClientState) :
    ClientState × Option (List InsertAttentionMetric) :=
  if s.isSavingMetrics then (s, none)
  else if s.pendingMetrics ≠ [] ∧ s.currentSessionId ≠ "" then
    ({ s with isSavingMetrics := true }, some s.pendingMetrics)
  else (s, none)

/-- Completion of a batch save started by the interval: on success exactly the
    first saveCount queued metrics are removed (only when the queue still has
    at least that many), on failure the queue is kept for retry; the
    save-in-progress ref clears either way. -/
def saveMetricsComplete (s : ClientState) (saveCount : ℕ) (ok : Bool) : ClientState :=
  if ok then
    { s with
      pendingMetrics :=
        if saveCount ≤ s.pendingMetrics.length then s.pendingMetrics.drop saveCount
        else s.pendingMetrics,
      isSavingMetrics := false }
  else { s with isSavingMetrics := false }

/-- The stop handler's polling loop, counting from iteration i with the given
    fuel: it spins while the save-in-progress ref reads true at the current
    poll and returns the number of iterations performed. -/
def waitLoopGo (saving : ℕ → Bool) : ℕ → ℕ → ℕ
  | 0, i => i
  | fuel + 1, i => if saving i then waitLoopGo saving fuel (i + 1) else i

/-- maxWaitIterations = 50 (5 seconds at 100 ms per iteration). -/
def maxWaitIterations : ℕ := 50

/-- The STEP 3 polling wait of handleStopSession, given the value the
    save-in-progress ref reads at each poll. -/
def waitLoop (saving : ℕ → Bool) : ℕ := waitLoopGo saving maxWaitIterations 0

/-- The final-statistics PATCH body built in STEP 5 of handleStopSession: the
    seven statistics fields present, startTime absent. -/
def sessionUpdateOf (s : ClientState) (endTime : ℚ) : SessionUpdate :=
  { startTime := none,
    endTime := some (some endTime),
    duration := some (some s.sessionDuration),
    averageAttention := some (some (s.allScores.sum / (s.allScores.length : ℚ))),
    peakAttention := some (some ((s.allScores.max?).getD 0)),
    lowestAttention := some (some ((s.allScores.min?).getD 0)),
    totalBlinks := some (some s.blinkCounter),
    averageEyeOpenness :=
      some (some
        (if s.dataPointCount > 0 then s.eyeOpennessSum / (s.dataPointCount : ℚ) else 0)) }

/-- Everything one run of handleStopSession produces: the final client state,
    the iterations the polling wait used, whether the timeout warning fired,
    the final batch POST body if one was attempted, and the PATCH body if one
    was issued. -/
structure StopResult where
  state : ClientState
  waitIterationsUsed : ℕ
  timeoutWarning : Bool
  finalSaveRequest : Option (List InsertAttentionMetric)
  patchRequest : Option SessionUpdate
deriving DecidableEq

/-- STEP 5 and STEP 6 of handleStopSession: issue the PATCH when there is a
    positive duration, scores and a session id (its failure only toasts), then
    reset all remaining state. -/
def stopStep56 (s : ClientState) (w : ℕ) (warn : Bool)
    (req : Option (List InsertAttentionMetric)) (endTime : ℚ) : StopResult :=
  { state :=
      { s with
        isStopping := false, sessionDuration := 0, allScores := [], blinkCounter := 0,
        eyeOpennessSum := 0, dataPointCount := 0, pendingMetrics := [],
        currentSessionId := "" },
    waitIterationsUsed := w,
    timeoutWarning := warn,
    finalSaveRequest := req,
    patchRequest :=
      if s.sessionDuration > 0 ∧ s.allScores ≠ [] ∧ s.currentSessionId ≠ "" then
        some (sessionUpdateOf s endTime)
      else none }

/-- handleStopSession: set the stopping flag and deactivate the session, run
    the bounded polling wait (warning when the cap was reached), attempt the
    final batch save once when the queue is nonempty and a session id exists
    (finalSaveOk is that request's outcome); on failure clear the stopping
    flag, re-activate the session and return with the queue intact; otherwise
    proceed to the PATCH and the state reset. -/
def handleStopSession (s : ClientState) (saving : ℕ → Bool) (finalSaveOk : Bool)
    (endTime : ℚ) : StopResult :=
  let s1 := { s with isStopping := true, isSessionActive := false, isPaused := false }
  let w := waitLoop saving
  let warn := decide (maxWaitIterations ≤ w)
  if s1.pendingMetrics ≠ [] ∧ s1.currentSessionId ≠ "" then
    if finalSaveOk then
      stopStep56 { s1 with pendingMetrics := [] } w warn (some s1.pendingMetrics) endTime
    else
      { state := { s1 with isStopping := false, isSessionActive := true },
        waitIterationsUsed := w,
        timeoutWarning := warn,
        finalSaveRequest := some s1.pendingMetrics,
        patchRequest := none }
  else stopStep56 s1 w warn none endTime

/-- C2: a firing of the batch timer while a previous save is still in flight
    performs no network request and leaves the whole state, in particular the
    pending-metrics queue, unchanged. -/
theorem metricsIntervalTick_skips_when_saving (s : ClientState)
    (h : s.isSavingMetrics = true) :
    metricsIntervalTick s = (s, none) := by
  simp [metricsIntervalTick, h]

/-- Witness for the in-flight guard at a concrete state. -/
theorem metricsIntervalTick_skips_when_saving_witness :
    (⟨[⟨"sid", 0, 50, 0, 0, "center", 0, 0⟩], true, false, true, false, "sid", 3, [50],
       0, 0, 1⟩ : ClientState).isSavingMetrics = true ∧
    metricsIntervalTick
        ⟨[⟨"sid", 0, 50, 0, 0, "center", 0, 0⟩], true, false, true, false, "sid", 3, [50],
          0, 0, 1⟩
      = (⟨[⟨"sid", 0, 50, 0, 0, "center", 0, 0⟩], true, false, true, false, "sid", 3, [50],
          0, 0, 1⟩, none) :=
  ⟨rfl,
   metricsIntervalTick_skips_when_saving
     ⟨[⟨"sid", 0, 50, 0, 0, "center", 0, 0⟩], true, false, true, false, "sid", 3, [50],
       0, 0, 1⟩ rfl⟩

/-- C3: when the final flush fails during stop, the stop is abandoned: the
    queue keeps all the metrics that failed to save, no PATCH goes out, the
    stopping flag clears and the session is re-activated so the user can click
    Stop again. -/
theorem handleStopSession_failed_flush (s : ClientState) (saving : ℕ → Bool)
    (endTime : ℚ) (hp : s.pendingMetrics ≠ []) (hid : s.currentSessionId ≠ "") :
    (handleStopSession s saving false endTime).state.pendingMetrics = s.pendingMetrics ∧
    (handleStopSession s saving false endTime).patchRequest = none ∧
    (handleStopSession s saving false endTime).state.isStopping = false ∧
    (handleStopSession s saving false endTime).state.isSessionActive = true := by
  simp [handleStopSession, hp, hid]

/-- Witness for the abandoned stop at a concrete state. -/
theorem handleStopSession_failed_flush_witness :
    (⟨[⟨"sid", 0, 50, 0, 0, "center", 0, 0⟩], false, false, true, false, "sid", 3, [50],
       0, 0, 1⟩ : ClientState).pendingMetrics ≠ [] ∧
    (⟨[⟨"sid", 0, 50, 0, 0, "center", 0, 0⟩], false, false, true, false, "sid", 3, [50],
       0, 0, 1⟩ : ClientState).currentSessionId ≠ "" ∧
    (handleStopSession
        ⟨[⟨"sid", 0, 50, 0, 0, "center", 0, 0⟩], false, false, true, false, "sid", 3, [50],
          0, 0, 1⟩ (fun _ => false) false 9).state.pendingMetrics
      = [⟨"sid", 0, 50, 0, 0, "center", 0, 0⟩] :=
  ⟨by decide, by decide,
   (handleStopSession_failed_flush
     ⟨[⟨"sid", 0, 50, 0, 0, "center", 0, 0⟩], false, false, true, false, "sid", 3, [50],
       0, 0, 1⟩ (fun _ => false) 9 (by decide) (by decide)).1⟩

theorem waitLoopGo_le (saving : ℕ → Bool) (fuel i : ℕ) :
    waitLoopGo saving fuel i ≤ i + fuel := by
  induction fuel generalizing i with
  | zero => simp [waitLoopGo]
  | succ n ih =>
      simp only [waitLoopGo]
      split
      · exact le_trans (ih (i + 1)) (by omega)
      · omega

theorem waitLoop_le (saving : ℕ → Bool) : waitLoop saving ≤ 50 := by
  simpa [waitLoop, maxWaitIterations] using waitLoopGo_le saving 50 0

/-- C4: every run of the stop handler polls the in-flight save at most 50
    times, fires the timeout warning exactly when the cap was reached, and
    reaches the final-flush step no matter what the save-in-progress ref does:
    the final batch request is determined by the queue and session id alone. -/
theorem handleStopSession_bounded_wait (s : ClientState) (saving : ℕ → Bool)
    (ok : Bool) (endTime : ℚ) :
    (handleStopSession s saving ok endTime).waitIterationsUsed ≤ 50 ∧
    ((handleStopSession s saving ok endTime).timeoutWarning = true ↔
      (handleStopSession s saving ok endTime).waitIterationsUsed = 50) ∧
    (handleStopSession s saving ok endTime).finalSaveRequest
      = (if s.pendingMetrics ≠ [] ∧ s.currentSessionId ≠ "" then some s.pendingMetrics
         else none) := by
  have hw : (handleStopSession s saving ok endTime).waitIterationsUsed = waitLoop saving := by
    simp only [handleStopSession]
    split_ifs <;> simp [stopStep56]
  have hwarn : (handleStopSession s saving ok endTime).timeoutWarning
      = decide (maxWaitIterations ≤ waitLoop saving) := by
    simp only [handleStopSession]
    split_ifs <;> simp [stopStep56]
  have hreq : (handleStopSession s saving ok endTime).finalSaveRequest
      = (if s.pendingMetrics ≠ [] ∧ s.currentSessionId ≠ "" then some s.pendingMetrics
         else none) := by
    simp only [handleStopSession]
    split_ifs with h1 h2 <;> simp_all [stopStep56]
  have hle := waitLoop_le saving
  refine ⟨?_, ?_, hreq⟩
  · rw [hw]
    exact hle
  · rw [hwarn, hw]
    simp only [maxWaitIterations, decide_eq_true_eq]
    omega

end FocusBand
